import Mathlib

/-!
Shallow embedding of the RNC (non-conformance report) tracking tool
`app.py`: an inspection-record lifecycle store backed by two tables
(`inspecoes`, `fotos`) in a single SQLite file.

The database state is modelled as two lists of rows plus the AUTOINCREMENT
counters.  Each core function of the source (`init_db`, `insert_inspecao`,
`add_photos`, `fetch_df`, `fetch_photos`, `encerrar_inspecao`,
`reabrir_inspecao`) and the UI filter block is translated to a Lean
function over this state.  `datetime.now()` is passed in explicitly as a
`Nat` timestamp.
-/

namespace RNC

/-- A row of the `inspecoes` table (schema at app.py lines 20-39).
Columns that the INSERT at lines 83-84 does not mention start out NULL. -/
structure Inspecao where
  id : Nat
  data : Option Nat
  area : String
  titulo : String
  responsavel : String
  descricao : String
  severidade : String
  categoria : String
  acoes : String
  status : String
  encerrada_em : Option Nat
  encerrada_por : Option String
  encerramento_obs : Option String
  eficacia : Option String
  responsavel_acao : String
  reaberta_em : Option Nat
  reaberta_por : Option String
  reabertura_motivo : Option String
deriving Repr, DecidableEq

/-- A row of the `fotos` table (schema at app.py lines 41-49). -/
structure Foto where
  id : Nat
  inspecao_id : Nat
  blob : List Nat
  filename : String
  mimetype : String
  tipo : String
deriving Repr, DecidableEq

/-- An uploaded image as produced by `files_to_images` (app.py line 164):
a dict with keys `blob`, `name`, `mime`. -/
structure Img where
  blob : List Nat
  name : String
  mime : String
deriving Repr, DecidableEq

/-- The `rec` dict passed to `insert_inspecao` (app.py lines 200-211). -/
structure RecFields where
  data : Option Nat
  area : String
  titulo : String
  responsavel : String
  descricao : String
  severidade : String
  categoria : String
  acoes : String
  status : String
  responsavel_acao : String
deriving Repr, DecidableEq

/-- The persistent database: the two tables plus their AUTOINCREMENT
counters (SQLite assigns ids 1, 2, 3, ... in insertion order). -/
structure DB where
  inspecoes : List Inspecao
  nextInspecaoId : Nat
  fotos : List Foto
  nextFotoId : Nat
deriving Repr, DecidableEq

def emptyDB : DB := ⟨[], 1, [], 1⟩

/-- One INSERT INTO fotos (app.py lines 88-91 / 97-100). -/
def insertFoto (db : DB) (iid : Nat) (img : Img) (tipo : String) : DB :=
  { db with
    fotos := db.fotos ++
      [⟨db.nextFotoId, iid, img.blob, img.name, img.mime, tipo⟩],
    nextFotoId := db.nextFotoId + 1 }

/-- Function `add_photos(iid, images, tipo)` (app.py lines 94-100): one
INSERT per image, all tagged with the given `tipo`. -/
def add_photos (iid : Nat) (images : List Img) (tipo : String) (db : DB) : DB :=
  images.foldl (fun d img => insertFoto d iid img tipo) db

/-- The rows `add_photos` appends: ids counting up from `startId`, all
referencing `iid` and tagged `tipo`. -/
def mkFotos (startId iid : Nat) (tipo : String) : List Img → List Foto
  | [] => []
  | img :: rest =>
    ⟨startId, iid, img.blob, img.name, img.mime, tipo⟩ ::
      mkFotos (startId + 1) iid tipo rest

/-- Function `insert_inspecao(rec, images)` (app.py lines 80-92): INSERT the record,
read back the assigned id within the same transaction, INSERT each image
tagged 'abertura' referencing that id, and return the id. -/
def insert_inspecao (rec : RecFields) (images : List Img) (db : DB) :
    Nat × DB :=
  let iid := db.nextInspecaoId
  let row : Inspecao :=
    ⟨iid, rec.data, rec.area, rec.titulo, rec.responsavel, rec.descricao,
     rec.severidade, rec.categoria, rec.acoes, rec.status,
     none, none, none, none, rec.responsavel_acao, none, none, none⟩
  let db1 : DB :=
    { db with inspecoes := db.inspecoes ++ [row], nextInspecaoId := iid + 1 }
  (iid, add_photos iid images "abertura" db1)

/-- The "Nova RNC" submit path (app.py lines 198-212): the Shell builds
`rec` with `status` hard-coded to "Aberta" and calls `insert_inspecao`. -/
def create_record (data : Option Nat)
    (area titulo responsavel descricao severidade categoria acoes
     responsavel_acao : String) (images : List Img) (db : DB) : Nat × DB :=
  insert_inspecao
    ⟨data, area, titulo, responsavel, descricao, severidade, categoria,
     acoes, "Aberta", responsavel_acao⟩ images db

/-- The SET clause of `encerrar_inspecao`'s UPDATE (app.py lines 124-131). -/
def closeUpdate (now : Nat) (por obs eficacia : String) (r : Inspecao) :
    Inspecao :=
  { r with status := "Encerrada", encerrada_em := some now,
           encerrada_por := some por, encerramento_obs := some obs,
           eficacia := some eficacia }

/-- Function `encerrar_inspecao(iid, por, obs, eficacia, images)` (app.py lines
122-134): UPDATE rows WHERE id=iid (zero rows matched is not an error),
then `add_photos(iid, images, 'encerramento')` when `images` is truthy. -/
def encerrar_inspecao (iid : Nat) (por obs eficacia : String) (now : Nat)
    (images : List Img) (db : DB) : DB :=
  let db1 : DB :=
    { db with inspecoes := db.inspecoes.map fun r =>
        if r.id = iid then closeUpdate now por obs eficacia r else r }
  if images.isEmpty then db1 else add_photos iid images "encerramento" db1

/-- The SET clause of `reabrir_inspecao`'s UPDATE (app.py lines 138-144). -/
def reopenUpdate (now : Nat) (por motivo : String) (r : Inspecao) :
    Inspecao :=
  { r with status := "Em ação", reaberta_em := some now,
           reaberta_por := some por, reabertura_motivo := some motivo }

/-- Function `reabrir_inspecao(iid, por, motivo, images)` (app.py lines 136-147):
UPDATE rows WHERE id=iid — no check of the current status — then
`add_photos(iid, images, 'reabertura')` when `images` is truthy. -/
def reabrir_inspecao (iid : Nat) (por motivo : String) (now : Nat)
    (images : List Img) (db : DB) : DB :=
  let db1 : DB :=
    { db with inspecoes := db.inspecoes.map fun r =>
        if r.id = iid then reopenUpdate now por motivo r else r }
  if images.isEmpty then db1 else add_photos iid images "reabertura" db1

/-- Function `fetch_photos(iid, tipo)` (app.py lines 115-120): SELECT ...
FROM fotos WHERE inspecao_id=iid AND tipo=tipo ORDER BY id. -/
def fetch_photos (iid : Nat) (tipo : String) (db : DB) : List Foto :=
  (db.fotos.filter fun f => f.inspecao_id = iid ∧ f.tipo = tipo)
    |>.insertionSort fun a b => a.id ≤ b.id

/-- Function `fetch_df()` (app.py lines 102-113): SELECT all records ORDER
BY id DESC. -/
def fetch_df (db : DB) : List Inspecao :=
  db.inspecoes.insertionSort fun a b => b.id ≤ a.id

/-- The characters Python `re` treats as special outside character
classes: `. ^ $ * + ? { } [ ] \ | ( )`. -/
def regexMeta : List Char :=
  ['.', '^', '$', '*', '+', '?', Char.ofNat 123, Char.ofNat 125,
   '[', ']', '\\', '|', '(', ')']

/-- True when the string holds no regex metacharacter, so Python `re`
matches it purely literally. -/
def isRegexFree (s : String) : Bool :=
  s.data.all fun c => ¬ c ∈ regexMeta

/-- One pattern character against one text character, case-insensitively:
the metacharacter `.` matches anything, a literal matches up to case. -/
def charMatchCI (p t : Char) : Bool :=
  p = '.' || p.toLower = t.toLower

/-- The pattern matches a prefix of the text (both as char lists),
with `.` as wildcard and case-insensitive literals. -/
def matchesAt : List Char → List Char → Bool
  | [], _ => true
  | _ :: _, [] => false
  | p :: ps, t :: ts => charMatchCI p t && matchesAt ps ts

/-- The pattern is literally a prefix of the text, case-insensitively. -/
def isPrefixCI : List Char → List Char → Bool
  | [], _ => true
  | _ :: _, [] => false
  | p :: ps, t :: ts => (p.toLower = t.toLower) && isPrefixCI ps ts

/-- The spec's wording for the area/inspector filter: case-insensitive
substring containment of the filter string.  This is the claim-side
reading; the code applies the string as a regex — see `reSearchDotCI`. -/
def strContainsCI (s pat : String) : Bool :=
  (List.range (s.data.length + 1)).any fun i =>
    isPrefixCI pat.data (s.data.drop i)

/-- The code's behaviour: pandas `Series.str.contains(pat, case=False,
na=False)` defaults to `regex=True`, i.e. `re.search` with IGNORECASE.
Modelled here for patterns whose only metacharacter is `.` (any single
character); patterns using other metacharacters — including invalid ones,
which make the real filter raise `re.error` — are outside the model, and
every theorem below stays inside this domain. -/
def reSearchDotCI (s pat : String) : Bool :=
  (List.range (s.data.length + 1)).any fun i =>
    matchesAt pat.data (s.data.drop i)

/-- The filter block of "Consultar/Encerrar/Reabrir" (app.py lines
230-234): each filter is applied only when truthy (non-empty list /
non-empty string); status and severity by membership, area and
responsável by case-insensitive regex search (`str.contains` with
`case=False`, default `regex=True`). -/
def applyFilters (f_status f_sev : List String) (f_area f_resp : String)
    (l : List Inspecao) : List Inspecao :=
  let l1 := if f_status = [] then l
            else l.filter fun r => r.status ∈ f_status
  let l2 := if f_sev = [] then l1
            else l1.filter fun r => r.severidade ∈ f_sev
  let l3 := if f_area = "" then l2
            else l2.filter fun r => reSearchDotCI r.area f_area
  if f_resp = "" then l3
  else l3.filter fun r => reSearchDotCI r.responsavel f_resp

/-! ### Schema manager (`init_db`, app.py lines 17-78) -/

/-- Errors the storage engine can raise while executing DDL. -/
inductive MigError where
  | colExists
  | storageFailure
deriving Repr, DecidableEq

/-- The shape of one table: whether it exists and which columns it has. -/
structure TableSchema where
  present : Bool
  cols : List String
deriving Repr, DecidableEq

/-- The schema-level state: the two tables plus whether the storage file
is writable. -/
structure SchemaState where
  inspecoes : TableSchema
  fotos : TableSchema
  writable : Bool
deriving Repr, DecidableEq

/-- Columns of `inspecoes` as created by the current CREATE TABLE
(app.py lines 20-39). -/
def inspecoesBaseCols : List String :=
  ["id", "data", "area", "titulo", "responsavel", "descricao",
   "severidade", "categoria", "acoes", "status", "encerrada_em",
   "encerrada_por", "encerramento_obs", "eficacia", "responsavel_acao",
   "reaberta_em", "reaberta_por", "reabertura_motivo"]

/-- Columns of `fotos` as created by the current CREATE TABLE
(app.py lines 41-49). -/
def fotosBaseCols : List String :=
  ["id", "inspecao_id", "blob", "filename", "mimetype", "tipo"]

/-- The ALTER TABLE inspecoes ADD COLUMN list (app.py lines 52-58). -/
def inspecoesMigrations : List String :=
  ["responsavel_acao", "reaberta_em", "reaberta_por", "reabertura_motivo",
   "status"]

/-- The ALTER TABLE fotos ADD COLUMN sequence (app.py lines 63-78). -/
def fotosMigrations : List String :=
  ["filename", "mimetype", "blob", "tipo"]

/-- CREATE TABLE IF NOT EXISTS: a no-op when the table is present;
otherwise it writes the table, failing when the storage is unwritable. -/
def createTableIfNotExists (w : Bool) (base : List String)
    (t : TableSchema) : Except MigError TableSchema :=
  if t.present then .ok t
  else if w then .ok ⟨true, base⟩
  else .error .storageFailure

/-- ALTER TABLE ADD COLUMN: a duplicate column is an error, and otherwise
the write fails when the storage is unwritable. -/
def alterAddColumn (w : Bool) (col : String) (t : TableSchema) :
    Except MigError TableSchema :=
  if col ∈ t.cols then .error .colExists
  else if w then .ok ⟨t.present, t.cols ++ [col]⟩
  else .error .storageFailure

/-- One migration step wrapped in `try: ... except Exception: pass`
(app.py lines 59-62 and 63-78): every error is swallowed. -/
def tryAlterAddColumn (w : Bool) (t : TableSchema) (col : String) :
    TableSchema :=
  match alterAddColumn w col t with
  | .ok t2 => t2
  | .error _ => t

/-- Predicate on the outcome of `init_db`: true when no error escaped. -/
def migOk : Except MigError SchemaState → Bool
  | .ok _ => true
  | .error _ => false

/-- Function `init_db()` (app.py lines 17-78): CREATE TABLE IF NOT EXISTS
for both tables (not wrapped in try, so a failure there escapes), then the
additive migrations, each wrapped in try/except pass. -/
def init_db (s : SchemaState) : Except MigError SchemaState :=
  match createTableIfNotExists s.writable inspecoesBaseCols s.inspecoes with
  | .error e => .error e
  | .ok insp =>
    match createTableIfNotExists s.writable fotosBaseCols s.fotos with
    | .error e => .error e
    | .ok fot =>
      .ok { s with
        inspecoes :=
          inspecoesMigrations.foldl (tryAlterAddColumn s.writable) insp,
        fotos := fotosMigrations.foldl (tryAlterAddColumn s.writable) fot }

/-! ### Sequences of core operations (for the referential-integrity
invariant) -/

/-- One invocation of a core operation, as the Shell can issue it. -/
inductive Op where
  | create (rec : RecFields) (imgs : List Img)
  | close (iid : Nat) (por obs eficacia : String) (now : Nat)
      (imgs : List Img)
  | reopen (iid : Nat) (por motivo : String) (now : Nat) (imgs : List Img)
  | attach (iid : Nat) (imgs : List Img) (tipo : String)
deriving Repr

/-- Run one core operation against the database. -/
def applyOp (db : DB) : Op → DB
  | .create rec imgs => (insert_inspecao rec imgs db).2
  | .close iid por obs ef now imgs =>
      encerrar_inspecao iid por obs ef now imgs db
  | .reopen iid por motivo now imgs =>
      reabrir_inspecao iid por motivo now imgs db
  | .attach iid imgs tipo => add_photos iid imgs tipo db

/-- Referential integrity: every fotos row points at an existing record. -/
def refIntact (db : DB) : Prop :=
  ∀ f ∈ db.fotos, ∃ r ∈ db.inspecoes, r.id = f.inspecao_id

/-- The operation only attaches evidence to a record that exists (always
true of `create`, which makes its own record first). -/
def opTargets (db : DB) : Op → Prop
  | .create _ _ => True
  | .close iid _ _ _ _ imgs =>
      imgs = [] ∨ ∃ r ∈ db.inspecoes, r.id = iid
  | .reopen iid _ _ _ imgs =>
      imgs = [] ∨ ∃ r ∈ db.inspecoes, r.id = iid
  | .attach iid imgs _ =>
      imgs = [] ∨ ∃ r ∈ db.inspecoes, r.id = iid

/-- Every operation of the sequence targets an existing record at the
state where it runs. -/
def validSeq : DB → List Op → Prop
  | _, [] => True
  | db, op :: rest => opTargets db op ∧ validSeq (applyOp db op) rest

/-! ### Projections and concrete sample data -/

/-- The closure metadata of a record, together with its id. -/
def closureProj (r : Inspecao) :
    Nat × Option Nat × Option String × Option String × Option String :=
  (r.id, r.encerrada_em, r.encerrada_por, r.encerramento_obs, r.eficacia)

/-- The reopening metadata of a record, together with its id. -/
def reopenProj (r : Inspecao) :
    Nat × Option Nat × Option String × Option String :=
  (r.id, r.reaberta_em, r.reaberta_por, r.reabertura_motivo)

def demoImg : Img := ⟨[7, 7, 7], "foto.jpg", "image/jpeg"⟩

def demoRow : Inspecao :=
  ⟨1, some 10, "Correia TR-2011", "Parafusos sem torque", "Vitor", "desc",
   "Alta", "Qualidade", "reapertar", "Aberta", none, none, none, none,
   "Joana", none, none, none⟩

def demoDB : DB := ⟨[demoRow], 2, [], 1⟩

def demoRec : RecFields :=
  ⟨some 10, "Correia TR-2011", "Parafusos sem torque", "Vitor", "desc",
   "Alta", "Qualidade", "reapertar", "Aberta", "Joana"⟩

def demoCreatedDB : DB :=
  ⟨[demoRow], 2,
   [⟨1, 1, demoImg.blob, demoImg.name, demoImg.mime, "abertura"⟩], 2⟩

def demoOps : List Op :=
  [.create demoRec [demoImg], .close 1 "p" "o" "Eficaz" 5 [demoImg],
   .reopen 1 "q" "motivo" 6 []]

def demoOrphanOp : Op := .attach 5 [demoImg] "abertura"

def demoOrphanFoto : Foto :=
  ⟨1, 5, demoImg.blob, demoImg.name, demoImg.mime, "abertura"⟩

def oldSchema : SchemaState :=
  ⟨⟨true, ["id", "data", "area", "titulo", "responsavel", "descricao",
           "severidade", "categoria", "acoes", "status"]⟩,
   ⟨true, ["id", "inspecao_id", "blob"]⟩, false⟩

def freshSchema : SchemaState := ⟨⟨false, []⟩, ⟨false, []⟩, true⟩

instance : IsTotal Inspecao fun a b => b.id ≤ a.id :=
  ⟨fun a b => Nat.le_total b.id a.id⟩

instance : IsTrans Inspecao fun a b => b.id ≤ a.id :=
  ⟨fun _ _ _ h1 h2 => Nat.le_trans h2 h1⟩

/-! ## Helper lemmas -/

theorem add_photos_inspecoes (iid : Nat) (imgs : List Img) (tipo : String)
    (db : DB) : (add_photos iid imgs tipo db).inspecoes = db.inspecoes := by
  induction imgs generalizing db with
  | nil => rfl
  | cons i rest ih => exact ih (insertFoto db iid i tipo)

theorem add_photos_nextInspecaoId (iid : Nat) (imgs : List Img)
    (tipo : String) (db : DB) :
    (add_photos iid imgs tipo db).nextInspecaoId = db.nextInspecaoId := by
  induction imgs generalizing db with
  | nil => rfl
  | cons i rest ih => exact ih (insertFoto db iid i tipo)

theorem add_photos_fotos (iid : Nat) (imgs : List Img) (tipo : String)
    (db : DB) :
    (add_photos iid imgs tipo db).fotos =
      db.fotos ++ mkFotos db.nextFotoId iid tipo imgs := by
  induction imgs generalizing db with
  | nil => simp [add_photos, mkFotos]
  | cons i rest ih =>
    show (add_photos iid rest tipo (insertFoto db iid i tipo)).fotos = _
    rw [ih]
    simp [insertFoto, mkFotos]

theorem mem_mkFotos {iid : Nat} {tipo : String} {f : Foto} :
    ∀ {imgs : List Img} {startId : Nat},
      f ∈ mkFotos startId iid tipo imgs →
      f.inspecao_id = iid ∧ f.tipo = tipo := by
  intro imgs
  induction imgs with
  | nil => intro startId h; cases h
  | cons i rest ih =>
    intro startId h
    rcases List.mem_cons.1 h with rfl | h2
    · exact ⟨rfl, rfl⟩
    · exact ih h2

theorem mem_map_updIf {iid : Nat} {g : Inspecao → Inspecao}
    {l : List Inspecao} {r : Inspecao}
    (hr : r ∈ l.map fun x => if x.id = iid then g x else x)
    (h : r.id = iid) : ∃ a ∈ l, a.id = iid ∧ r = g a := by
  rcases List.mem_map.1 hr with ⟨a, ha, heq⟩
  by_cases h2 : a.id = iid
  · exact ⟨a, ha, h2, by rw [← heq, if_pos h2]⟩
  · exfalso
    rw [if_neg h2] at heq
    rw [← heq] at h
    exact h2 h

theorem exists_id_map_updIf {iid x : Nat} {g : Inspecao → Inspecao}
    (hid : ∀ r, (g r).id = r.id) {l : List Inspecao}
    (h : ∃ r ∈ l, r.id = x) :
    ∃ r ∈ l.map fun a => if a.id = iid then g a else a, r.id = x := by
  obtain ⟨r, hr, hx⟩ := h
  refine ⟨if r.id = iid then g r else r, List.mem_map_of_mem _ hr, ?_⟩
  by_cases h2 : r.id = iid
  · rw [if_pos h2, hid, hx]
  · rw [if_neg h2, hx]

theorem encerrar_inspecoes_eq (iid : Nat) (por obs ef : String) (now : Nat)
    (imgs : List Img) (db : DB) :
    (encerrar_inspecao iid por obs ef now imgs db).inspecoes =
      db.inspecoes.map fun r =>
        if r.id = iid then closeUpdate now por obs ef r else r := by
  simp only [encerrar_inspecao]
  split
  · rfl
  · rw [add_photos_inspecoes]

theorem reabrir_inspecoes_eq (iid : Nat) (por motivo : String) (now : Nat)
    (imgs : List Img) (db : DB) :
    (reabrir_inspecao iid por motivo now imgs db).inspecoes =
      db.inspecoes.map fun r =>
        if r.id = iid then reopenUpdate now por motivo r else r := by
  simp only [reabrir_inspecao]
  split
  · rfl
  · rw [add_photos_inspecoes]

theorem encerrar_fields_of_mem {iid : Nat} {por obs ef : String} {now : Nat}
    {imgs : List Img} {db : DB} {r : Inspecao}
    (hr : r ∈ (encerrar_inspecao iid por obs ef now imgs db).inspecoes)
    (h : r.id = iid) :
    r.status = "Encerrada" ∧ r.encerrada_em = some now ∧
      r.encerrada_por = some por ∧ r.encerramento_obs = some obs ∧
      r.eficacia = some ef := by
  rw [encerrar_inspecoes_eq] at hr
  obtain ⟨a, _, _, rfl⟩ := mem_map_updIf hr h
  exact ⟨rfl, rfl, rfl, rfl, rfl⟩

theorem reabrir_fields_of_mem {iid : Nat} {por motivo : String} {now : Nat}
    {imgs : List Img} {db : DB} {r : Inspecao}
    (hr : r ∈ (reabrir_inspecao iid por motivo now imgs db).inspecoes)
    (h : r.id = iid) :
    r.status = "Em ação" ∧ r.reaberta_em = some now ∧
      r.reaberta_por = some por ∧ r.reabertura_motivo = some motivo := by
  rw [reabrir_inspecoes_eq] at hr
  obtain ⟨a, _, _, rfl⟩ := mem_map_updIf hr h
  exact ⟨rfl, rfl, rfl, rfl⟩

/-! ## Claims -/

/-- C1: for every record id and set of supplied closure values,
`encerrar_inspecao` sets status to Encerrada and stamps `encerrada_em`,
`encerrada_por`, `encerramento_obs` and `eficacia` together, and a second
close with different values overwrites all four fields plus status
consistently, leaving no mixture of old and new values. -/
theorem close_overwrites_all_fields (db : DB) (iid : Nat)
    (por1 obs1 ef1 por2 obs2 ef2 : String) (now1 now2 : Nat)
    (imgs1 imgs2 : List Img) :
    (∀ r ∈ (encerrar_inspecao iid por1 obs1 ef1 now1 imgs1 db).inspecoes,
      r.id = iid →
        r.status = "Encerrada" ∧ r.encerrada_em = some now1 ∧
        r.encerrada_por = some por1 ∧ r.encerramento_obs = some obs1 ∧
        r.eficacia = some ef1) ∧
    (∀ r ∈ (encerrar_inspecao iid por2 obs2 ef2 now2 imgs2
        (encerrar_inspecao iid por1 obs1 ef1 now1 imgs1 db)).inspecoes,
      r.id = iid →
        r.status = "Encerrada" ∧ r.encerrada_em = some now2 ∧
        r.encerrada_por = some por2 ∧ r.encerramento_obs = some obs2 ∧
        r.eficacia = some ef2) :=
  ⟨fun _ hr h => encerrar_fields_of_mem hr h,
   fun _ hr h => encerrar_fields_of_mem hr h⟩

/-- Witness for C1 at a concrete database: the closed demo record is in
the table after closing and carries exactly the supplied values. -/
theorem close_overwrites_all_fields_witness :
    (closeUpdate 5 "a" "o1" "Eficaz" demoRow ∈
        (encerrar_inspecao 1 "a" "o1" "Eficaz" 5 [] demoDB).inspecoes) ∧
    (closeUpdate 5 "a" "o1" "Eficaz" demoRow).id = 1 ∧
    ((closeUpdate 5 "a" "o1" "Eficaz" demoRow).status = "Encerrada" ∧
      (closeUpdate 5 "a" "o1" "Eficaz" demoRow).encerrada_em = some 5 ∧
      (closeUpdate 5 "a" "o1" "Eficaz" demoRow).encerrada_por = some "a" ∧
      (closeUpdate 5 "a" "o1" "Eficaz" demoRow).encerramento_obs =
        some "o1" ∧
      (closeUpdate 5 "a" "o1" "Eficaz" demoRow).eficacia = some "Eficaz") :=
  ⟨by decide, by decide,
   (close_overwrites_all_fields demoDB 1 "a" "o1" "Eficaz" "b" "o2" "x"
        5 9 [] []).1 _ (by decide) (by decide)⟩

/-- C3: `reabrir_inspecao` sets status to Em ação and stamps
`reaberta_em`, `reaberta_por` and `reabertura_motivo`, with no check of
the current status: it overwrites even records that are not Encerrada. -/
theorem reopen_overwrites_status (db : DB) (iid : Nat)
    (por motivo : String) (now : Nat) (imgs : List Img) :
    ∀ r ∈ (reabrir_inspecao iid por motivo now imgs db).inspecoes,
      r.id = iid →
        r.status = "Em ação" ∧ r.reaberta_em = some now ∧
        r.reaberta_por = some por ∧ r.reabertura_motivo = some motivo :=
  fun _ hr h => reabrir_fields_of_mem hr h

/-- Witness for C3 at a concrete database whose record is in the
non-Closed status Aberta: reopening still overwrites it. -/
theorem reopen_overwrites_status_witness :
    demoRow.status = "Aberta" ∧
    (reopenUpdate 6 "q" "motivo" demoRow ∈
        (reabrir_inspecao 1 "q" "motivo" 6 [] demoDB).inspecoes) ∧
    (reopenUpdate 6 "q" "motivo" demoRow).id = 1 ∧
    ((reopenUpdate 6 "q" "motivo" demoRow).status = "Em ação" ∧
      (reopenUpdate 6 "q" "motivo" demoRow).reaberta_em = some 6 ∧
      (reopenUpdate 6 "q" "motivo" demoRow).reaberta_por = some "q" ∧
      (reopenUpdate 6 "q" "motivo" demoRow).reabertura_motivo =
        some "motivo") :=
  ⟨by decide, by decide, by decide,
   reopen_overwrites_status demoDB 1 "q" "motivo" 6 [] _ (by decide)
     (by decide)⟩

/-- C4: reopening never touches the closure metadata (`encerrada_em`,
`encerrada_por`, `encerramento_obs`, `eficacia`) of any record, and
closing never touches the reopening metadata: only the operation that
owns a stamp overwrites it. -/
theorem transitions_preserve_other_metadata (db : DB) (iid iid2 : Nat)
    (por motivo por2 obs ef : String) (now now2 : Nat)
    (imgs imgs2 : List Img) :
    ((reabrir_inspecao iid por motivo now imgs db).inspecoes).map
        closureProj = db.inspecoes.map closureProj ∧
    ((encerrar_inspecao iid2 por2 obs ef now2 imgs2 db).inspecoes).map
        reopenProj = db.inspecoes.map reopenProj := by
  constructor
  · rw [reabrir_inspecoes_eq, List.map_map]
    apply List.map_congr_left
    intro a _
    by_cases h : a.id = iid <;>
      simp [Function.comp, h, reopenUpdate, closureProj]
  · rw [encerrar_inspecoes_eq, List.map_map]
    apply List.map_congr_left
    intro a _
    by_cases h : a.id = iid2 <;>
      simp [Function.comp, h, closeUpdate, reopenProj]

/-- C10: closing or reopening an id that identifies no stored record
matches zero rows: it completes (no error is modelled because SQL UPDATE
with zero matches is not an error) and leaves every stored record
unchanged, creating nothing. -/
theorem close_reopen_missing_id_noop (db : DB) (iid : Nat)
    (por obs ef motivo : String) (now : Nat) (imgs imgs2 : List Img)
    (h : ∀ r ∈ db.inspecoes, r.id ≠ iid) :
    (encerrar_inspecao iid por obs ef now imgs db).inspecoes =
        db.inspecoes ∧
    (reabrir_inspecao iid por motivo now imgs2 db).inspecoes =
        db.inspecoes := by
  constructor
  · rw [encerrar_inspecoes_eq]
    rw [show (db.inspecoes.map fun r =>
          if r.id = iid then closeUpdate now por obs ef r else r) =
        db.inspecoes.map id from
      List.map_congr_left fun a ha => if_neg (h a ha)]
    exact List.map_id db.inspecoes
  · rw [reabrir_inspecoes_eq]
    rw [show (db.inspecoes.map fun r =>
          if r.id = iid then reopenUpdate now por motivo r else r) =
        db.inspecoes.map id from
      List.map_congr_left fun a ha => if_neg (h a ha)]
    exact List.map_id db.inspecoes

/-- Witness for C10: id 99 identifies no record of the demo database and
both operations leave the records untouched. -/
theorem close_reopen_missing_id_noop_witness :
    (∀ r ∈ demoDB.inspecoes, r.id ≠ 99) ∧
    ((encerrar_inspecao 99 "p" "o" "e" 5 [] demoDB).inspecoes =
        demoDB.inspecoes ∧
      (reabrir_inspecao 99 "p" "m" 5 [] demoDB).inspecoes =
        demoDB.inspecoes) :=
  ⟨by decide,
   close_reopen_missing_id_noop demoDB 99 "p" "o" "e" "m" 5 [] []
     (by decide)⟩

/-- C2: `create_record` assigns the next id (fresh with respect to every
stored record), stores the record with status Aberta and empty closure
and reopening metadata, appends one fotos row per evidence item — each
tagged abertura and referencing the new id, with ids taken after the
record insert — and returns the new id as the first component. -/
theorem create_record_spec (data : Option Nat)
    (area titulo responsavel descricao severidade categoria acoes
      owner : String) (imgs : List Img) (db : DB) (iid : Nat) (db2 : DB)
    (hres : create_record data area titulo responsavel descricao
        severidade categoria acoes owner imgs db = (iid, db2))
    (hfresh : ∀ r ∈ db.inspecoes, r.id < db.nextInspecaoId) :
    iid = db.nextInspecaoId ∧
    (∀ r ∈ db.inspecoes, r.id ≠ iid) ∧
    db2.inspecoes = db.inspecoes ++
      [⟨iid, data, area, titulo, responsavel, descricao, severidade,
        categoria, acoes, "Aberta", none, none, none, none, owner,
        none, none, none⟩] ∧
    db2.fotos = db.fotos ++ mkFotos db.nextFotoId iid "abertura" imgs ∧
    (∀ f ∈ mkFotos db.nextFotoId iid "abertura" imgs,
      f.inspecao_id = iid ∧ f.tipo = "abertura") ∧
    db2.nextInspecaoId = iid + 1 := by
  have h1 : iid = db.nextInspecaoId := by
    have := congrArg Prod.fst hres
    simp only [create_record, insert_inspecao] at this
    rw [← this]
  subst h1
  have h2 : db2 = add_photos db.nextInspecaoId imgs "abertura"
      { db with
        inspecoes := db.inspecoes ++
          [⟨db.nextInspecaoId, data, area, titulo, responsavel, descricao,
            severidade, categoria, acoes, "Aberta", none, none, none,
            none, owner, none, none, none⟩],
        nextInspecaoId := db.nextInspecaoId + 1 } := by
    have := congrArg Prod.snd hres
    simp only [create_record, insert_inspecao] at this
    rw [← this]
  subst h2
  refine ⟨rfl, fun r hr => Nat.ne_of_lt (hfresh r hr), ?_, ?_, ?_, ?_⟩
  · rw [add_photos_inspecoes]
  · rw [add_photos_fotos]
  · exact fun f hf => mem_mkFotos hf
  · rw [add_photos_nextInspecaoId]

/-- Witness for C2: creating the demo record with one photo on the empty
database returns id 1 and the expected stored state. -/
theorem create_record_spec_witness :
    (create_record (some 10) "Correia TR-2011" "Parafusos sem torque"
        "Vitor" "desc" "Alta" "Qualidade" "reapertar" "Joana" [demoImg]
        emptyDB = (1, demoCreatedDB)) ∧
    (∀ r ∈ emptyDB.inspecoes, r.id < emptyDB.nextInspecaoId) ∧
    (1 = emptyDB.nextInspecaoId ∧
      (∀ r ∈ emptyDB.inspecoes, r.id ≠ 1) ∧
      demoCreatedDB.inspecoes = emptyDB.inspecoes ++
        [⟨1, some 10, "Correia TR-2011", "Parafusos sem torque", "Vitor",
          "desc", "Alta", "Qualidade", "reapertar", "Aberta", none, none,
          none, none, "Joana", none, none, none⟩] ∧
      demoCreatedDB.fotos = emptyDB.fotos ++
        mkFotos emptyDB.nextFotoId 1 "abertura" [demoImg] ∧
      (∀ f ∈ mkFotos emptyDB.nextFotoId 1 "abertura" [demoImg],
        f.inspecao_id = 1 ∧ f.tipo = "abertura") ∧
      demoCreatedDB.nextInspecaoId = 1 + 1) :=
  ⟨by decide, by decide,
   create_record_spec (some 10) "Correia TR-2011" "Parafusos sem torque"
     "Vitor" "desc" "Alta" "Qualidade" "reapertar" "Joana" [demoImg]
     emptyDB 1 demoCreatedDB (by decide) (by decide)⟩

theorem fetch_photos_sorted_eq {db : DB} (jid : Nat) (t : String)
    (hs : List.Pairwise (fun a b : Foto => a.id ≤ b.id) db.fotos) :
    fetch_photos jid t db =
      db.fotos.filter fun f => f.inspecao_id = jid ∧ f.tipo = t := by
  unfold fetch_photos
  exact List.Sorted.insertionSort_eq (List.Pairwise.filter _ hs)

/-- C5: adding a single evidence item with phase X to a record with no
prior evidence and listing that id and phase returns exactly that item —
same payload bytes, filename and mime type; listing the same id with any
other phase returns the empty sequence; and on an id-sorted fotos table
(the invariant insertion maintains) `fetch_photos` returns rows in
insertion order, i.e. plain filter order. -/
theorem evidence_roundtrip (db : DB) (iid : Nat) (img : Img) (X : String)
    (hnone : ∀ f ∈ db.fotos, f.inspecao_id ≠ iid) :
    fetch_photos iid X (add_photos iid [img] X db) =
      [⟨db.nextFotoId, iid, img.blob, img.name, img.mime, X⟩] ∧
    (∀ Y, Y ≠ X → fetch_photos iid Y (add_photos iid [img] X db) = []) ∧
    (∀ (jid : Nat) (t : String),
      List.Pairwise (fun a b : Foto => a.id ≤ b.id) db.fotos →
      fetch_photos jid t db =
        db.fotos.filter fun f => f.inspecao_id = jid ∧ f.tipo = t) := by
  have hfotos : (add_photos iid [img] X db).fotos = db.fotos ++
      [⟨db.nextFotoId, iid, img.blob, img.name, img.mime, X⟩] := by
    rw [add_photos_fotos]; rfl
  refine ⟨?_, ?_, fun jid t hs => fetch_photos_sorted_eq jid t hs⟩
  · unfold fetch_photos
    rw [hfotos, List.filter_append]
    have h1 : db.fotos.filter
        (fun f => decide (f.inspecao_id = iid ∧ f.tipo = X)) = [] := by
      rw [List.filter_eq_nil_iff]
      intro a ha
      simp [hnone a ha]
    rw [h1]
    simp [List.filter, List.insertionSort, List.orderedInsert]
  · intro Y hY
    unfold fetch_photos
    rw [hfotos, List.filter_append]
    have h1 : db.fotos.filter
        (fun f => decide (f.inspecao_id = iid ∧ f.tipo = Y)) = [] := by
      rw [List.filter_eq_nil_iff]
      intro a ha
      simp [hnone a ha]
    have h2 : List.filter
        (fun f => decide (f.inspecao_id = iid ∧ f.tipo = Y))
        [(⟨db.nextFotoId, iid, img.blob, img.name, img.mime, X⟩ : Foto)] =
        [] := by
      simp [List.filter, Ne.symm hY]
    rw [h1, h2]
    rfl

/-- Witness for C5 on the empty database. -/
theorem evidence_roundtrip_witness :
    (∀ f ∈ emptyDB.fotos, f.inspecao_id ≠ 1) ∧
    (fetch_photos 1 "abertura" (add_photos 1 [demoImg] "abertura" emptyDB)
        = [⟨emptyDB.nextFotoId, 1, demoImg.blob, demoImg.name,
            demoImg.mime, "abertura"⟩] ∧
      (∀ Y, Y ≠ "abertura" →
        fetch_photos 1 Y (add_photos 1 [demoImg] "abertura" emptyDB)
          = []) ∧
      (∀ (jid : Nat) (t : String),
        List.Pairwise (fun a b : Foto => a.id ≤ b.id) emptyDB.fotos →
        fetch_photos jid t emptyDB = emptyDB.fotos.filter
          fun f => f.inspecao_id = jid ∧ f.tipo = t)) :=
  ⟨by decide, evidence_roundtrip emptyDB 1 demoImg "abertura" (by decide)⟩

theorem mem_filterIf {c : Prop} [Decidable c] {p : Inspecao → Bool}
    {l : List Inspecao} {r : Inspecao} :
    (r ∈ if c then l else l.filter p) ↔ r ∈ l ∧ (¬c → p r = true) := by
  by_cases h : c <;> simp [h, List.mem_filter]

theorem pairwise_filterIf {R : Inspecao → Inspecao → Prop} {c : Prop}
    [Decidable c] {p : Inspecao → Bool} {l : List Inspecao}
    (h : List.Pairwise R l) :
    List.Pairwise R (if c then l else l.filter p) := by
  by_cases hc : c
  · rwa [if_pos hc]
  · rw [if_neg hc]
    exact h.filter p

theorem matchesAt_eq_isPrefixCI {pat : List Char}
    (h : ∀ c ∈ pat, c ∉ regexMeta) :
    ∀ t, matchesAt pat t = isPrefixCI pat t := by
  induction pat with
  | nil => intro t; rfl
  | cons p ps ih =>
    intro t
    cases t with
    | nil => rfl
    | cons c cs =>
      have hp : p ≠ '.' := by
        intro hd
        exact h p (List.mem_cons_self p ps)
          (hd ▸ (by decide : ('.' : Char) ∈ regexMeta))
      show (charMatchCI p c && matchesAt ps cs) = _
      rw [ih (fun x hx => h x (List.mem_cons_of_mem p hx)) cs]
      unfold charMatchCI
      simp [hp, isPrefixCI]

theorem regexFree_eq {pat : String} (h : isRegexFree pat = true)
    (s : String) : reSearchDotCI s pat = strContainsCI s pat := by
  have h2 : ∀ c ∈ pat.data, c ∉ regexMeta := by
    intro c hc
    have h3 := List.all_eq_true.1 h c hc
    simpa using h3
  unfold reSearchDotCI strContainsCI
  simp only [matchesAt_eq_isPrefixCI h2]

/-- C6 counterexample: the area filter is a regex, not plain
containment: pandas `str.contains` defaults to `regex=True`, so the
filter string "." keeps the demo record — whose area holds no literal
dot — although the area does not contain "." case-insensitively.  (An
invalid pattern such as "(" even raises `re.error` in the real filter.) -/
theorem area_filter_regex_not_containment_cex :
    demoRow ∈ applyFilters [] [] "." "" (fetch_df demoDB) ∧
    strContainsCI demoRow.area "." = false := by
  constructor
  · decide
  · decide

/-- C6 amended: the query path keeps exactly the stored records passing
every requested dimension and returns them in descending-id order;
status and severity filter by membership in the requested set, an absent
dimension imposes no restriction, and — because the code applies the
area/inspector strings as case-insensitive regular expressions — the
containment reading holds for filter strings free of regex
metacharacters, where regex search and case-insensitive substring
containment coincide. -/
theorem list_records_filter (db : DB) (f_status f_sev : List String)
    (f_area f_resp : String) (hfa : isRegexFree f_area = true)
    (hfr : isRegexFree f_resp = true) :
    (∀ r : Inspecao,
      r ∈ applyFilters f_status f_sev f_area f_resp (fetch_df db) ↔
        r ∈ db.inspecoes ∧
        (f_status ≠ [] → r.status ∈ f_status) ∧
        (f_sev ≠ [] → r.severidade ∈ f_sev) ∧
        (f_area ≠ "" → strContainsCI r.area f_area = true) ∧
        (f_resp ≠ "" → strContainsCI r.responsavel f_resp = true)) ∧
    List.Pairwise (fun a b : Inspecao => b.id ≤ a.id)
      (applyFilters f_status f_sev f_area f_resp (fetch_df db)) := by
  constructor
  · intro r
    simp only [applyFilters, mem_filterIf, fetch_df,
      List.mem_insertionSort, decide_eq_true_eq, regexFree_eq hfa,
      regexFree_eq hfr]
    tauto
  · have h0 : List.Pairwise (fun a b : Inspecao => b.id ≤ a.id)
        (fetch_df db) :=
      List.sorted_insertionSort (fun a b : Inspecao => b.id ≤ a.id)
        db.inspecoes
    simp only [applyFilters]
    exact pairwise_filterIf (pairwise_filterIf (pairwise_filterIf
      (pairwise_filterIf h0)))

/-- Witness for the amended C6 at a concrete database and a
metacharacter-free filter. -/
theorem list_records_filter_witness :
    isRegexFree "corr" = true ∧ isRegexFree "" = true ∧
    ((demoRow ∈ applyFilters ["Aberta"] [] "corr" "" (fetch_df demoDB) ↔
        demoRow ∈ demoDB.inspecoes ∧
        ((["Aberta"] : List String) ≠ [] → demoRow.status ∈ ["Aberta"]) ∧
        (([] : List String) ≠ [] →
          demoRow.severidade ∈ ([] : List String)) ∧
        ("corr" ≠ "" → strContainsCI demoRow.area "corr" = true) ∧
        ("" ≠ "" → strContainsCI demoRow.responsavel "" = true)) ∧
      List.Pairwise (fun a b : Inspecao => b.id ≤ a.id)
        (applyFilters ["Aberta"] [] "corr" "" (fetch_df demoDB))) :=
  ⟨by decide, by decide,
   ⟨(list_records_filter demoDB ["Aberta"] [] "corr" "" (by decide)
       (by decide)).1 demoRow,
    (list_records_filter demoDB ["Aberta"] [] "corr" "" (by decide)
       (by decide)).2⟩⟩

theorem createTable_present (w : Bool) (base : List String)
    {t : TableSchema} (h : t.present = true) :
    createTableIfNotExists w base t = .ok t := by
  simp [createTableIfNotExists, h]

theorem createTable_writable (base : List String) (t : TableSchema) :
    createTableIfNotExists true base t =
      .ok (if t.present then t else ⟨true, base⟩) := by
  by_cases h : t.present <;> simp [createTableIfNotExists, h]

theorem tryAlter_present (w : Bool) (t : TableSchema) (col : String) :
    (tryAlterAddColumn w t col).present = t.present := by
  unfold tryAlterAddColumn alterAddColumn
  by_cases h : col ∈ t.cols <;> cases w <;> simp [h]

theorem tryAlter_cols_mono {c : String} {t : TableSchema}
    (h : c ∈ t.cols) (w : Bool) (col : String) :
    c ∈ (tryAlterAddColumn w t col).cols := by
  unfold tryAlterAddColumn alterAddColumn
  by_cases h2 : col ∈ t.cols <;> cases w <;>
    simp [h2, List.mem_append, h]

theorem tryAlter_mem_self (t : TableSchema) (col : String) :
    col ∈ (tryAlterAddColumn true t col).cols := by
  unfold tryAlterAddColumn alterAddColumn
  by_cases h : col ∈ t.cols <;> simp [h]

theorem tryAlter_of_mem {t : TableSchema} {col : String}
    (h : col ∈ t.cols) (w : Bool) : tryAlterAddColumn w t col = t := by
  unfold tryAlterAddColumn alterAddColumn
  simp [h]

theorem foldl_tryAlter_present (w : Bool) (L : List String) :
    ∀ t : TableSchema,
      (L.foldl (tryAlterAddColumn w) t).present = t.present := by
  induction L with
  | nil => intro t; rfl
  | cons a L ih =>
    intro t
    rw [List.foldl_cons, ih, tryAlter_present]

theorem foldl_tryAlter_mono (w : Bool) {c : String} (L : List String) :
    ∀ {t : TableSchema}, c ∈ t.cols →
      c ∈ (L.foldl (tryAlterAddColumn w) t).cols := by
  induction L with
  | nil => intro t h; exact h
  | cons a L ih =>
    intro t h
    rw [List.foldl_cons]
    exact ih (tryAlter_cols_mono h w a)

theorem foldl_tryAlter_mem (L : List String) :
    ∀ (t : TableSchema), ∀ c ∈ L,
      c ∈ (L.foldl (tryAlterAddColumn true) t).cols := by
  induction L with
  | nil => intro t c hc; cases hc
  | cons a L ih =>
    intro t c hc
    rw [List.foldl_cons]
    rcases List.mem_cons.1 hc with rfl | hc2
    · exact foldl_tryAlter_mono true L (tryAlter_mem_self t c)
    · exact ih _ c hc2

theorem foldl_tryAlter_id (w : Bool) (L : List String) :
    ∀ {t : TableSchema}, (∀ c ∈ L, c ∈ t.cols) →
      L.foldl (tryAlterAddColumn w) t = t := by
  induction L with
  | nil => intro t _; rfl
  | cons a L ih =>
    intro t h
    rw [List.foldl_cons, tryAlter_of_mem (h a (List.mem_cons_self a L)) w]
    exact ih fun c hc => h c (List.mem_cons_of_mem a hc)

theorem init_db_stable (s : SchemaState)
    (hp1 : s.inspecoes.present = true) (hp2 : s.fotos.present = true)
    (hm1 : ∀ c ∈ inspecoesMigrations, c ∈ s.inspecoes.cols)
    (hm2 : ∀ c ∈ fotosMigrations, c ∈ s.fotos.cols) :
    init_db s = .ok s := by
  unfold init_db
  rw [createTable_present _ _ hp1, createTable_present _ _ hp2]
  dsimp only
  rw [foldl_tryAlter_id _ _ hm1, foldl_tryAlter_id _ _ hm2]

/-- C7: on writable storage, `init_db` succeeds from any starting schema
(fresh, current, or an older version with some additive migrations
already applied) and is idempotent: the state it produces is a fixed
point, so any number of further runs succeed and change nothing. -/
theorem init_db_idempotent (s : SchemaState) (hw : s.writable = true) :
    ∃ s2, init_db s = .ok s2 ∧ init_db s2 = .ok s2 := by
  refine ⟨{ s with
    inspecoes := inspecoesMigrations.foldl (tryAlterAddColumn true)
      (if s.inspecoes.present then s.inspecoes
       else ⟨true, inspecoesBaseCols⟩),
    fotos := fotosMigrations.foldl (tryAlterAddColumn true)
      (if s.fotos.present then s.fotos else ⟨true, fotosBaseCols⟩) },
    ?_, ?_⟩
  · unfold init_db
    rw [hw, createTable_writable, createTable_writable]
  · apply init_db_stable
    · rw [foldl_tryAlter_present]
      by_cases h : s.inspecoes.present <;> simp [h]
    · rw [foldl_tryAlter_present]
      by_cases h : s.fotos.present <;> simp [h]
    · exact foldl_tryAlter_mem inspecoesMigrations _
    · exact foldl_tryAlter_mem fotosMigrations _

/-- Witness for C7 starting from a fresh (absent) schema. -/
theorem init_db_idempotent_witness :
    freshSchema.writable = true ∧
    ∃ s2, init_db freshSchema = .ok s2 ∧ init_db s2 = .ok s2 :=
  ⟨rfl, init_db_idempotent freshSchema rfl⟩

/-- C8 counterexample: on the old-version schema held on unwritable
storage, the first migration step fails with `storageFailure` — not the
benign already-exists error — yet `init_db` completes successfully:
the failure is swallowed, not propagated. -/
theorem init_db_swallows_storage_failure :
    alterAddColumn false "responsavel_acao" oldSchema.inspecoes =
      .error .storageFailure ∧
    migOk (init_db oldSchema) = true := by
  constructor
  · rfl
  · decide

/-- C8 amended: whenever the two CREATE TABLE IF NOT EXISTS statements
succeed (for instance because both tables already exist), `init_db`
returns successfully whatever happens inside the migration loop: every
migration failure, also one that is not column-already-exists, is
suppressed — nothing propagates from the loop. -/
theorem init_db_suppresses_all_migration_failures (s : SchemaState)
    (h1 : s.inspecoes.present = true) (h2 : s.fotos.present = true) :
    migOk (init_db s) = true := by
  unfold init_db
  rw [createTable_present _ _ h1, createTable_present _ _ h2]
  rfl

/-- Witness for the amended C8 at the unwritable old-version schema. -/
theorem init_db_suppresses_all_migration_failures_witness :
    oldSchema.inspecoes.present = true ∧ oldSchema.fotos.present = true ∧
    migOk (init_db oldSchema) = true :=
  ⟨rfl, rfl, init_db_suppresses_all_migration_failures oldSchema rfl rfl⟩

theorem add_photos_refIntact {db : DB} {iid : Nat} {imgs : List Img}
    {tipo : String} (h : refIntact db)
    (ht : imgs = [] ∨ ∃ r ∈ db.inspecoes, r.id = iid) :
    refIntact (add_photos iid imgs tipo db) := by
  intro f hf
  rw [add_photos_inspecoes]
  rw [add_photos_fotos] at hf
  rcases List.mem_append.1 hf with hf2 | hf2
  · exact h f hf2
  · rcases ht with rfl | ⟨r, hr, hid⟩
    · cases hf2
    · exact ⟨r, hr, hid.trans (mem_mkFotos hf2).1.symm⟩

theorem applyOp_refIntact {db : DB} {op : Op} (h : refIntact db)
    (ht : opTargets db op) : refIntact (applyOp db op) := by
  cases op with
  | create rec imgs =>
    show refIntact (insert_inspecao rec imgs db).2
    simp only [insert_inspecao]
    apply add_photos_refIntact
    · intro f hf
      obtain ⟨r, hr, hid⟩ := h f hf
      exact ⟨r, List.mem_append_left _ hr, hid⟩
    · right
      exact ⟨_, List.mem_append_right _ (List.mem_singleton_self _), rfl⟩
  | close iid por obs ef now imgs =>
    show refIntact (encerrar_inspecao iid por obs ef now imgs db)
    simp only [encerrar_inspecao]
    have hdb1 : refIntact
        { db with inspecoes := db.inspecoes.map fun r =>
            if r.id = iid then closeUpdate now por obs ef r else r } :=
      fun f hf =>
        @exists_id_map_updIf iid f.inspecao_id
          (closeUpdate now por obs ef) (fun _ => rfl) db.inspecoes
          (h f hf)
    split
    · exact hdb1
    · apply add_photos_refIntact hdb1
      rcases ht with rfl | ⟨r, hr, hid⟩
      · exact Or.inl rfl
      · exact Or.inr
          (@exists_id_map_updIf iid iid (closeUpdate now por obs ef)
            (fun _ => rfl) db.inspecoes ⟨r, hr, hid⟩)
  | reopen iid por motivo now imgs =>
    show refIntact (reabrir_inspecao iid por motivo now imgs db)
    simp only [reabrir_inspecao]
    have hdb1 : refIntact
        { db with inspecoes := db.inspecoes.map fun r =>
            if r.id = iid then reopenUpdate now por motivo r else r } :=
      fun f hf =>
        @exists_id_map_updIf iid f.inspecao_id
          (reopenUpdate now por motivo) (fun _ => rfl) db.inspecoes
          (h f hf)
    split
    · exact hdb1
    · apply add_photos_refIntact hdb1
      rcases ht with rfl | ⟨r, hr, hid⟩
      · exact Or.inl rfl
      · exact Or.inr
          (@exists_id_map_updIf iid iid (reopenUpdate now por motivo)
            (fun _ => rfl) db.inspecoes ⟨r, hr, hid⟩)
  | attach iid imgs tipo =>
    exact add_photos_refIntact h ht

/-- C9 counterexample: the repository enforces no referential integrity:
attaching evidence to the nonexistent record id 5 on the empty database
yields an evidence row whose owning record does not exist. -/
theorem orphan_evidence_cex :
    ¬ refIntact (applyOp emptyDB demoOrphanOp) := by
  intro h
  obtain ⟨r, hr, -⟩ := h demoOrphanFoto (by decide)
  have hnil : (applyOp emptyDB demoOrphanOp).inspecoes = [] := by decide
  rw [hnil] at hr
  exact List.not_mem_nil r hr

/-- C9 amended: provided every evidence-inserting operation of the
sequence targets an id that exists at the state where it runs (which is
the Shell's usage: ids are read from the table), referential integrity is
preserved: starting from a database where every fotos row references an
existing record, it still holds after the whole sequence. -/
theorem evidence_integrity (db : DB) (ops : List Op) (h0 : refIntact db)
    (hv : validSeq db ops) : refIntact (ops.foldl applyOp db) := by
  induction ops generalizing db with
  | nil => exact h0
  | cons op rest ih =>
    obtain ⟨h1, h2⟩ := hv
    exact ih (applyOp db op) (applyOp_refIntact h0 h1) h2

/-- Witness for the amended C9: create, close with evidence, reopen. -/
theorem evidence_integrity_witness :
    refIntact emptyDB ∧ validSeq emptyDB demoOps ∧
    refIntact (demoOps.foldl applyOp emptyDB) := by
  have h0 : refIntact emptyDB := by
    intro f hf
    cases hf
  have hv : validSeq emptyDB demoOps :=
    ⟨trivial, Or.inr (by decide), Or.inr (by decide), trivial⟩
  exact ⟨h0, hv, evidence_integrity emptyDB demoOps h0 hv⟩

end RNC
